import Mathlib

/-!
Verification of the voxel-map core of the repository: the sparse block map,
the exposure (visibility) cache and the fixed-step raycaster, embedded from
src/DeepSeek.py (class World) and src/StableDiffusion.py (class
StableDiffusionWorld and StableCraftWindow.raycast).

Modelling conventions:
* a Python dict is an association list with dict update semantics;
* Python floats are exact rationals; Python round (half to even) and int()
  truncation are modelled exactly;
* a Python TypeError is the error of an Except computation.  In particular
  the seventh entry of FACE_VECTORS in src/DeepSeek.py (line 32) is a triple
  of triples, and Python raises TypeError on `x + dx` when it is reached.
-/

/-- Decidable equality of Except values (used to state results of
operations that may raise). -/
def exceptDecEq {ε α : Type} [DecidableEq ε] [DecidableEq α] :
    DecidableEq (Except ε α)
  | .error a, .error b =>
    if h : a = b then .isTrue (by rw [h])
    else .isFalse (fun hc => h (by injection hc))
  | .error _, .ok _ => .isFalse (fun hc => by injection hc)
  | .ok _, .error _ => .isFalse (fun hc => by injection hc)
  | .ok a, .ok b =>
    if h : a = b then .isTrue (by rw [h])
    else .isFalse (fun hc => h (by injection hc))

instance {ε α : Type} [DecidableEq ε] [DecidableEq α] :
    DecidableEq (Except ε α) := exceptDecEq

/-- A voxel position: an integer triple (keys of `self.blocks`). -/
abbrev Pos := Int × Int × Int

/-- Block types are opaque string tags (src/DeepSeek.py line 14, BLOCK). -/
abbrev BlockType := String

/-- The tag of grass blocks. -/
def grass : BlockType := "GRASS"

/-- The tag of stone blocks. -/
def stone : BlockType := "STONE"

/-- The sparse map from position to block type (`self.blocks`). -/
abbrev BMap := List (Pos × BlockType)

/-- Python `position in self.blocks`. -/
def containsKey : BMap → Pos → Bool
  | [], _ => false
  | kv :: rest, p => if kv.1 = p then true else containsKey rest p

/-- Python `self.blocks[position] = t`: dict update, insertion order kept. -/
def dictSet : BMap → Pos → BlockType → BMap
  | [], p, t => [(p, t)]
  | kv :: rest, p, t => if kv.1 = p then (p, t) :: rest else kv :: dictSet rest p t

/-- Python `del self.blocks[position]`. -/
def dictErase : BMap → Pos → BMap
  | [], _ => []
  | kv :: rest, p => if kv.1 = p then dictErase rest p else kv :: dictErase rest p

/-- Python `position in self.visible_blocks` (the cache keys; the stored
vertex-list handles are irrelevant to the claims). -/
def memPos : List Pos → Pos → Bool
  | [], _ => false
  | q :: rest, p => if q = p then true else memPos rest p

/-- Removal of a key from the visible cache (`del self.visible_blocks[p]`). -/
def removePos : List Pos → Pos → List Pos
  | [], _ => []
  | q :: rest, p => if q = p then removePos rest p else q :: removePos rest p

/-- Componentwise sum of a position and a face delta. -/
def padd (p : Pos) (d : Int × Int × Int) : Pos :=
  (p.1 + d.1, p.2.1 + d.2.1, p.2.2 + d.2.2)

/-- An entry of FACE_VECTORS, src/DeepSeek.py lines 25-33: the first six are
plain integer triples; the seventh (line 32, commented `seven`) is a triple
of triples. -/
inductive FaceVec where
  | plain (d : Int × Int × Int) : FaceVec
  | seven (d : (Int × Int × Int) × (Int × Int × Int) × (Int × Int × Int)) : FaceVec
deriving DecidableEq, Repr

/-- The six well-formed face deltas of FACE_VECTORS, in source order:
Right, Top, Front, Back, Bottom, Left. -/
def faceDeltas : List (Int × Int × Int) :=
  [(1, 0, 0), (0, 1, 0), (0, 0, 1), (0, 0, -1), (0, -1, 0), (-1, 0, 0)]

/-- The malformed seventh entry of FACE_VECTORS (src/DeepSeek.py line 32). -/
def sevenEntry : FaceVec := .seven ((1, 1, 1), (1, -1, 1), (-1, 1, -1))

/-- FACE_VECTORS, src/DeepSeek.py lines 25-33: six face deltas followed by
the malformed seventh entry. -/
def FACE_VECTORS : List FaceVec := faceDeltas.map .plain ++ [sevenEntry]

/-- Python `(x + dx, y + dy, z + dz)` for an entry of FACE_VECTORS: on the
seventh entry `x + dx` adds an int and a tuple, which raises TypeError. -/
def addPos (p : Pos) : FaceVec → Except Unit Pos
  | .plain d => .ok (padd p d)
  | .seven _ => .error ()

/-- The state of src/DeepSeek.py class World that the claims concern:
`self.blocks` and the key set of `self.visible_blocks`. -/
structure World where
  blocks : BMap
  visible : List Pos
deriving DecidableEq, Repr

/-- A freshly constructed empty map (before build_world runs). -/
def emptyWorld : World := ⟨[], []⟩

/-- The loop of World.is_visible, src/DeepSeek.py lines 144-147:
`for dx, dy, dz in FACE_VECTORS: if (x+dx, y+dy, z+dz) not in self.blocks:
return True`, then `return False`. -/
def visLoop (blocks : BMap) (p : Pos) : List FaceVec → Except Unit Bool
  | [] => .ok false
  | fv :: rest =>
    match addPos p fv with
    | .error e => .error e
    | .ok nb => if containsKey blocks nb then visLoop blocks p rest else .ok true

/-- World.is_visible, src/DeepSeek.py lines 141-147. -/
def is_visible (blocks : BMap) (p : Pos) : Except Unit Bool :=
  visLoop blocks p FACE_VECTORS

/-- World.make_visible, src/DeepSeek.py lines 149-163 (the cache key is
appended; the vertex data passed to batch.add is rendering state, dropped). -/
def make_visible (w : World) (p : Pos) : World :=
  if memPos w.visible p then w else { w with visible := w.visible ++ [p] }

/-- World.make_hidden, src/DeepSeek.py lines 165-169. -/
def make_hidden (w : World) (p : Pos) : World :=
  if memPos w.visible p then { w with visible := removePos w.visible p } else w

/-- The neighbor-update loop of World.add_block, src/DeepSeek.py
lines 115-124.  `self.blocks` is not mutated inside the loop, so the
membership tests read `w.blocks` while the cache evolves. -/
def addNeighborLoop (w : World) (p : Pos) : List FaceVec → Except Unit World
  | [] => .ok w
  | fv :: rest =>
    match addPos p fv with
    | .error e => .error e
    | .ok nb =>
      if containsKey w.blocks nb && memPos w.visible nb then
        match is_visible w.blocks nb with
        | .error e => .error e
        | .ok v => addNeighborLoop (if v then w else make_hidden w nb) p rest
      else if containsKey w.blocks nb && !memPos w.visible nb then
        match is_visible w.blocks nb with
        | .error e => .error e
        | .ok v => addNeighborLoop (if v then make_visible w nb else w) p rest
      else addNeighborLoop w p rest

/-- World.add_block, src/DeepSeek.py lines 103-124. -/
def add_block (w : World) (p : Pos) (t : BlockType) : Except Unit World :=
  if containsKey w.blocks p then .ok w
  else
    let w1 : World := { w with blocks := dictSet w.blocks p t }
    match is_visible w1.blocks p with
    | .error e => .error e
    | .ok v =>
      let w2 := if v then make_visible w1 p else w1
      addNeighborLoop w2 p FACE_VECTORS

/-- The neighbor-update loop of World.remove_block, src/DeepSeek.py
lines 134-139. -/
def removeNeighborLoop (w : World) (p : Pos) : List FaceVec → Except Unit World
  | [] => .ok w
  | fv :: rest =>
    match addPos p fv with
    | .error e => .error e
    | .ok nb =>
      if containsKey w.blocks nb && !memPos w.visible nb then
        match is_visible w.blocks nb with
        | .error e => .error e
        | .ok v => removeNeighborLoop (if v then make_visible w nb else w) p rest
      else removeNeighborLoop w p rest

/-- World.remove_block, src/DeepSeek.py lines 126-139. -/
def remove_block (w : World) (p : Pos) : Except Unit World :=
  if containsKey w.blocks p then
    let w1 : World := { w with blocks := dictErase w.blocks p }
    let w2 := make_hidden w1 p
    removeNeighborLoop w2 p FACE_VECTORS
  else .ok w

/-- The six axis-aligned neighbors, in the order of
StableDiffusionWorld.is_exposed, src/StableDiffusion.py lines 295-299. -/
def sdNeighbors (p : Pos) : List Pos :=
  [(p.1 + 1, p.2.1, p.2.2), (p.1 - 1, p.2.1, p.2.2),
   (p.1, p.2.1 + 1, p.2.2), (p.1, p.2.1 - 1, p.2.2),
   (p.1, p.2.1, p.2.2 + 1), (p.1, p.2.1, p.2.2 - 1)]

/-- StableDiffusionWorld.is_exposed, src/StableDiffusion.py lines 292-304:
true iff some of the six neighbors is absent from the map; the occupancy of
`pos` itself is not consulted. -/
def sdIsExposed (blocks : BMap) (p : Pos) : Bool :=
  (sdNeighbors p).any (fun nb => !containsKey blocks nb)

/-- The state of StableDiffusionWorld that the claims concern: `self.blocks`,
the key set of `self.visible_blocks`, and the batch object (modelled by a
generation counter: rebuild_batch allocates a fresh pyglet Batch). -/
structure SDWorld where
  blocks : BMap
  visible : List Pos
  batch : Nat
deriving DecidableEq, Repr

/-- StableDiffusionWorld.add_block, src/StableDiffusion.py lines 306-308:
an unconditional dict write. -/
def sdAddBlock (w : SDWorld) (p : Pos) (t : BlockType) : SDWorld :=
  { w with blocks := dictSet w.blocks p t }

/-- StableDiffusionWorld.remove_block, src/StableDiffusion.py lines 310-313. -/
def sdRemoveBlock (w : SDWorld) (p : Pos) : SDWorld :=
  { w with blocks := dictErase w.blocks p }

/-- A point of continuous space (Python float triple, modelled in ℚ). -/
abbrev Vec3 := Rat × Rat × Rat

/-- The render-distance test of rebuild_batch, src/StableDiffusion.py
lines 277-282: `abs(x - px) < render_sq and abs(z - pz) < render_sq` with
`render_sq = RENDER_DISTANCE * CHUNK_s = 64`. -/
def sdWithinRender (p : Pos) (pp : Vec3) : Bool :=
  decide (|(p.1 : Rat) - pp.1| < 64) && decide (|(p.2.2 : Rat) - pp.2.2| < 64)

/-- StableDiffusionWorld.rebuild_batch, src/StableDiffusion.py lines 271-290:
a fresh batch, then the cache is rebuilt from `self.blocks` keeping blocks
in render distance whose is_exposed test passes. -/
def sdRebuildBatch (w : SDWorld) (pp : Vec3) : SDWorld :=
  { blocks := w.blocks,
    visible := (w.blocks.filter
      (fun kv => sdWithinRender kv.1 pp && sdIsExposed w.blocks kv.1)).map
      (fun kv => kv.1),
    batch := w.batch + 1 }

/-- Python round: round half to even, as in `int(round(x))` of the
raycasters (src/DeepSeek.py lines 177-181). -/
def pyRound (q : Rat) : Int :=
  let f : Int := q.floor
  if q - f < 1 / 2 then f
  else if 1 / 2 < q - f then f + 1
  else if f % 2 = 0 then f else f + 1

/-- Componentwise Python round of a float triple. -/
def roundPos (v : Vec3) : Pos := (pyRound v.1, pyRound v.2.1, pyRound v.2.2)

/-- `current + direction * s` componentwise (the march step, or with a
negative s the step back used to compute `prev`). -/
def stepAdd (v d : Vec3) (s : Rat) : Vec3 :=
  (v.1 + d.1 * s, v.2.1 + d.2.1 * s, v.2.2 + d.2.2 * s)

/-- Python int() truncation toward zero. -/
def pyIntTrunc (q : Rat) : Int := if 0 ≤ q then q.floor else -((-q).floor)

/-- The iteration count `int(max_distance / step_size)` with step 0.1
(src/DeepSeek.py lines 173-176). -/
def numIters (maxDist : Rat) : Nat := (pyIntTrunc (maxDist / (1 / 10))).toNat

/-- The body of the raycast march, src/DeepSeek.py lines 176-196 and
src/StableDiffusion.py lines 438-459: round the current point, return the
hit and the rounded point one step back on occupancy, else advance. -/
def raycastLoop (blocks : BMap) (dirv : Vec3) : Nat → Vec3 → Option (Pos × Pos)
  | 0, _ => none
  | n + 1, cur =>
    let bp := roundPos cur
    if containsKey blocks bp then
      some (bp, roundPos (stepAdd cur dirv (-(1 / 10))))
    else raycastLoop blocks dirv n (stepAdd cur dirv (1 / 10))

/-- World.raycast (src/DeepSeek.py lines 171-196) and the line-identical
StableCraftWindow.raycast (src/StableDiffusion.py lines 433-459); `none`
models the Python return value (None, None). -/
def raycast (blocks : BMap) (start dirv : Vec3) (maxDist : Rat) :
    Option (Pos × Pos) :=
  raycastLoop blocks dirv (numIters maxDist) start

/-- The point reached after k march steps from `start`. -/
def marchPos (start dirv : Vec3) : Nat → Vec3
  | 0 => start
  | k + 1 => stepAdd (marchPos start dirv k) dirv (1 / 10)

/-- A position has an absent axis-aligned neighbor in the map. -/
def hasAbsentNeighbor (blocks : BMap) (p : Pos) : Prop :=
  ∃ nb ∈ sdNeighbors p, containsKey blocks nb = false

instance (blocks : BMap) (p : Pos) : Decidable (hasAbsentNeighbor blocks p) := by
  unfold hasAbsentNeighbor; infer_instance

/-- A block at the origin surrounded on all six faces (the enclosed-cell
scenario of the spec). -/
def surroundedBlocks : BMap :=
  [(((0 : Int), (0 : Int), (0 : Int)), stone),
   ((1, 0, 0), stone), ((-1, 0, 0), stone),
   ((0, 1, 0), stone), ((0, -1, 0), stone),
   ((0, 0, 1), stone), ((0, 0, -1), stone)]

/-- The origin cell. -/
def origin000 : Pos := ((0 : Int), (0 : Int), (0 : Int))

/-- The zero direction vector. -/
def zeroVec : Vec3 := ((0 : Rat), 0, 0)

/-- A one-block world used to exercise the remove path. -/
def singletonWorld : World := ⟨[(origin000, grass)], [origin000]⟩

/-! ### Characterization of the exposure predicates -/

lemma visLoop_plain_of_any (blocks : BMap) (p : Pos)
    (l : List (Int × Int × Int))
    (h : l.any (fun d => !containsKey blocks (padd p d)) = true) :
    visLoop blocks p (l.map .plain ++ [sevenEntry]) = .ok true := by
  induction l with
  | nil => simp at h
  | cons d rest ih =>
    simp only [List.any_cons, Bool.or_eq_true, Bool.not_eq_true'] at h
    simp only [List.map_cons, List.cons_append, visLoop, addPos]
    rcases h with h | h
    · simp [h]
    · rcases Bool.eq_false_or_eq_true (containsKey blocks (padd p d)) with hc | hc <;>
        simp [hc, ih h]

lemma visLoop_plain_of_none (blocks : BMap) (p : Pos)
    (l : List (Int × Int × Int))
    (h : l.any (fun d => !containsKey blocks (padd p d)) = false) :
    visLoop blocks p (l.map .plain ++ [sevenEntry]) = .error () := by
  induction l with
  | nil => simp [visLoop, sevenEntry, addPos]
  | cons d rest ih =>
    rw [List.any_cons] at h
    have h1 : containsKey blocks (padd p d) = true := by
      rcases Bool.eq_false_or_eq_true (containsKey blocks (padd p d)) with hc | hc
      · exact hc
      · rw [hc] at h; simp at h
    have h2 : rest.any (fun d => !containsKey blocks (padd p d)) = false := by
      rw [h1] at h; simpa using h
    simp only [List.map_cons, List.cons_append, visLoop, addPos]
    simp [h1, ih h2]

lemma is_visible_of_any (blocks : BMap) (p : Pos)
    (h : faceDeltas.any (fun d => !containsKey blocks (padd p d)) = true) :
    is_visible blocks p = .ok true :=
  visLoop_plain_of_any blocks p faceDeltas h

lemma is_visible_of_none (blocks : BMap) (p : Pos)
    (h : faceDeltas.any (fun d => !containsKey blocks (padd p d)) = false) :
    is_visible blocks p = .error () :=
  visLoop_plain_of_none blocks p faceDeltas h

lemma any_absent_iff (blocks : BMap) (x y z : Int) :
    (faceDeltas.any (fun d => !containsKey blocks (padd (x, y, z) d)) = true) ↔
      hasAbsentNeighbor blocks (x, y, z) := by
  simp [faceDeltas, hasAbsentNeighbor, sdNeighbors, padd]
  tauto

lemma sdIsExposed_iff (blocks : BMap) (p : Pos) :
    sdIsExposed blocks p = true ↔ hasAbsentNeighbor blocks p := by
  simp [sdIsExposed, hasAbsentNeighbor]

/-! ### The neighbor-update loops always raise on the seventh entry -/

lemma removeNeighborLoop_err (p : Pos) (l : List (Int × Int × Int)) :
    ∀ w : World, removeNeighborLoop w p (l.map .plain ++ [sevenEntry]) = .error () := by
  induction l with
  | nil =>
    intro w
    simp [removeNeighborLoop, sevenEntry, addPos]
  | cons d rest ih =>
    intro w
    simp only [List.map_cons, List.cons_append, removeNeighborLoop, addPos]
    rcases Bool.eq_false_or_eq_true
        (containsKey w.blocks (padd p d) && !memPos w.visible (padd p d)) with hb | hb
    · cases hiv : is_visible w.blocks (padd p d) with
      | error e => cases e; simp [hb, hiv]
      | ok v => simp [hb, hiv, ih]
    · simp [hb, ih]

lemma addNeighborLoop_err (p : Pos) (l : List (Int × Int × Int)) :
    ∀ w : World, addNeighborLoop w p (l.map .plain ++ [sevenEntry]) = .error () := by
  induction l with
  | nil =>
    intro w
    simp [addNeighborLoop, sevenEntry, addPos]
  | cons d rest ih =>
    intro w
    simp only [List.map_cons, List.cons_append, addNeighborLoop, addPos]
    rcases Bool.eq_false_or_eq_true
        (containsKey w.blocks (padd p d) && memPos w.visible (padd p d)) with hb1 | hb1
    · cases hiv : is_visible w.blocks (padd p d) with
      | error e => cases e; simp [hb1, hiv]
      | ok v => simp [hb1, hiv, ih]
    · rcases Bool.eq_false_or_eq_true
          (containsKey w.blocks (padd p d) && !memPos w.visible (padd p d)) with hb2 | hb2
      · cases hiv : is_visible w.blocks (padd p d) with
        | error e => cases e; simp [hb1, hb2, hiv]
        | ok v => simp [hb1, hb2, hiv, ih]
      · simp [hb1, hb2, ih]

/-! ### No-op and crash behavior of add_block / remove_block -/

lemma add_block_occupied {w : World} {p : Pos} (t : BlockType)
    (h : containsKey w.blocks p = true) : add_block w p t = .ok w := by
  simp [add_block, h]

lemma add_block_fresh_err {w : World} {p : Pos} (t : BlockType)
    (h : containsKey w.blocks p = false) : add_block w p t = .error () := by
  rw [add_block]
  rw [h]
  simp only [Bool.false_eq_true, if_false]
  cases hiv : is_visible (dictSet w.blocks p t) p with
  | error e => cases e; rfl
  | ok v =>
    exact addNeighborLoop_err p faceDeltas _

lemma remove_block_unoccupied {w : World} {p : Pos}
    (h : containsKey w.blocks p = false) : remove_block w p = .ok w := by
  simp [remove_block, h]

lemma remove_block_occupied_err {w : World} {p : Pos}
    (h : containsKey w.blocks p = true) : remove_block w p = .error () := by
  rw [remove_block]
  rw [h]
  simp only [if_true]
  exact removeNeighborLoop_err p faceDeltas _

/-! ### Dictionary lemmas -/

lemma dictSet_idem (m : BMap) (p : Pos) (t : BlockType) :
    dictSet (dictSet m p t) p t = dictSet m p t := by
  induction m with
  | nil => simp [dictSet]
  | cons kv rest ih =>
    by_cases h : kv.1 = p
    · simp [dictSet, h]
    · simp [dictSet, h, ih]

lemma dictErase_idem (m : BMap) (p : Pos) :
    dictErase (dictErase m p) p = dictErase m p := by
  induction m with
  | nil => simp [dictErase]
  | cons kv rest ih =>
    by_cases h : kv.1 = p
    · simp [dictErase, h, ih]
    · simp [dictErase, h, ih]

lemma dictErase_not_mem (m : BMap) (p : Pos)
    (h : containsKey m p = false) : dictErase m p = m := by
  induction m with
  | nil => simp [dictErase]
  | cons kv rest ih =>
    by_cases hk : kv.1 = p
    · rw [containsKey] at h; simp [hk] at h
    · rw [containsKey] at h
      simp only [hk, if_false] at h
      simp [dictErase, hk, ih h]

/-! ### Claim theorems: the sparse map and the exposure cache -/

/-- C1: the incremental exposure cache can never be validated against a full
recomputation, because starting from the empty map the very first effective
`add_block` raises a TypeError (the malformed seventh FACE_VECTORS entry is
reached in the neighbor-update loop) instead of completing: the code crashes
on the failing input rather than establishing the invariant. -/
theorem c1_first_add_crashes : add_block emptyWorld origin000 grass = .error () := by
  decide

/-- C2: the core operations are not total.  Refuting the claim in general:
every `add_block` of a fresh position and every `remove_block` of an
occupied position raises a TypeError via the malformed seventh FACE_VECTORS
entry, so there is an error channel on essentially every effective input. -/
theorem c2_operations_raise :
    (∀ (w : World) (p : Pos) (t : BlockType),
      containsKey w.blocks p = false → add_block w p t = .error ()) ∧
    (∀ (w : World) (p : Pos),
      containsKey w.blocks p = true → remove_block w p = .error ()) :=
  ⟨fun _ _ t h => add_block_fresh_err t h, fun _ _ h => remove_block_occupied_err h⟩

/-- C2 witness: concrete crashing instances of both conjuncts. -/
theorem c2_operations_raise_witness :
    add_block ⟨[(((5 : Int), 5, 5), stone)], []⟩ origin000 grass = .error () ∧
    remove_block singletonWorld origin000 = .error () :=
  ⟨c2_operations_raise.1 ⟨[(((5 : Int), 5, 5), stone)], []⟩ origin000 grass (by decide),
   c2_operations_raise.2 singletonWorld origin000 (by decide)⟩

/-- C3 counterexample: the claimed iff fails, because neither exposure
predicate checks that the queried position is occupied: on the empty map,
`is_exposed((0,0,0))` is true although (0,0,0) is unoccupied. -/
theorem c3_unoccupied_exposed :
    sdIsExposed [] origin000 = true ∧ containsKey [] origin000 = false := by
  decide

/-- C3 amended: `is_exposed(pos)` is true iff at least one of the six
axis-aligned neighbors of `pos` is absent from the map, with no occupancy
check on `pos` itself; `World.is_visible` returns True under the same
condition, and raises a TypeError (rather than returning False) when all six
neighbors are present. -/
theorem c3_exposure_characterization (blocks : BMap) (p : Pos) :
    (sdIsExposed blocks p = true ↔ hasAbsentNeighbor blocks p) ∧
    (is_visible blocks p = .ok true ↔ hasAbsentNeighbor blocks p) ∧
    (is_visible blocks p = .error () ↔ ¬ hasAbsentNeighbor blocks p) := by
  obtain ⟨x, y, z⟩ := p
  refine ⟨sdIsExposed_iff blocks (x, y, z), ?_, ?_⟩
  · constructor
    · intro h
      rcases Bool.eq_false_or_eq_true
          (faceDeltas.any (fun d => !containsKey blocks (padd (x, y, z) d))) with hb | hb
      · exact (any_absent_iff blocks x y z).mp hb
      · rw [is_visible_of_none blocks (x, y, z) hb] at h
        exact absurd h (by simp)
    · intro h
      exact is_visible_of_any blocks (x, y, z) ((any_absent_iff blocks x y z).mpr h)
  · constructor
    · intro h hn
      rw [is_visible_of_any blocks (x, y, z)
        ((any_absent_iff blocks x y z).mpr hn)] at h
      exact absurd h (by simp)
    · intro h
      rcases Bool.eq_false_or_eq_true
          (faceDeltas.any (fun d => !containsKey blocks (padd (x, y, z) d))) with hb | hb
      · exact absurd ((any_absent_iff blocks x y z).mp hb) h
      · exact is_visible_of_none blocks (x, y, z) hb

/-- C4 counterexample: StableDiffusionWorld.add_block does not fail silently
on an occupied position — it overwrites the stored block type, so the first
writer does not win: adding grass over stone at (0,0,0) changes the map. -/
theorem c4_add_overwrites :
    (sdAddBlock ⟨[(origin000, stone)], [], 0⟩ origin000 grass).blocks
        = [(origin000, grass)] ∧
    grass ≠ stone := by
  decide

/-- C4 amended: DeepSeek's World.add_block on an occupied position is a
complete no-op (first writer wins: map, stored type and exposure cache are
untouched), hence adding twice there equals adding once;
StableDiffusionWorld.add_block instead unconditionally overwrites the stored
type (last writer wins), though it is still idempotent: add(p,t) twice in a
row leaves the map identical to calling it once. -/
theorem c4_add_occupied_noop (w : World) (sw : SDWorld) (p : Pos) (t : BlockType) :
    (containsKey w.blocks p = true → add_block w p t = .ok w) ∧
    sdAddBlock (sdAddBlock sw p t) p t = sdAddBlock sw p t := by
  constructor
  · intro h
    exact add_block_occupied t h
  · simp [sdAddBlock, dictSet_idem]

/-- C4 witness: the no-op conjunct at a concrete occupied position. -/
theorem c4_add_occupied_noop_witness :
    add_block singletonWorld origin000 stone = .ok singletonWorld :=
  (c4_add_occupied_noop singletonWorld ⟨[], [], 0⟩ origin000 stone).1 (by decide)

/-- C5: removing an unoccupied position is a no-op in both implementations
(map and exposure cache unchanged), and a remove that completes normally is
followed by a second remove of the same position that changes nothing; in
StableDiffusionWorld a double remove equals a single remove outright. -/
theorem c5_remove_noop (w : World) (sw : SDWorld) (p : Pos) :
    (containsKey w.blocks p = false → remove_block w p = .ok w) ∧
    (containsKey sw.blocks p = false → sdRemoveBlock sw p = sw) ∧
    (∀ w2 : World, remove_block w p = .ok w2 → remove_block w2 p = .ok w2) ∧
    sdRemoveBlock (sdRemoveBlock sw p) p = sdRemoveBlock sw p := by
  refine ⟨fun h => remove_block_unoccupied h, ?_, ?_, ?_⟩
  · intro h
    show SDWorld.mk (dictErase sw.blocks p) sw.visible sw.batch = sw
    rw [dictErase_not_mem sw.blocks p h]
  · intro w2 h
    rcases Bool.eq_false_or_eq_true (containsKey w.blocks p) with hc | hc
    · rw [remove_block_occupied_err hc] at h
      exact absurd h (by simp)
    · rw [remove_block_unoccupied hc] at h
      injection h with h2
      rw [← h2]
      exact remove_block_unoccupied hc
  · show SDWorld.mk (dictErase (dictErase sw.blocks p) p) sw.visible sw.batch = _
    rw [dictErase_idem]
    rfl

/-- C5 witness: the no-op conjuncts at a concrete unoccupied position. -/
theorem c5_remove_noop_witness :
    remove_block emptyWorld origin000 = .ok emptyWorld ∧
    sdRemoveBlock ⟨[], [], 0⟩ origin000 = ⟨[], [], 0⟩ :=
  ⟨(c5_remove_noop emptyWorld ⟨[], [], 0⟩ origin000).1 (by decide),
   (c5_remove_noop emptyWorld ⟨[], [], 0⟩ origin000).2.1 (by decide)⟩

/-- C6: on a block whose six axis-aligned neighbors are all occupied,
StableDiffusionWorld.is_exposed correctly returns false, but
World.is_visible raises a TypeError (the loop reaches the malformed seventh
FACE_VECTORS entry) instead of returning false as the spec requires. -/
theorem c6_surrounded_block :
    is_visible surroundedBlocks origin000 = .error () ∧
    sdIsExposed surroundedBlocks origin000 = false := by
  decide

/-- C10: StableDiffusionWorld.add_block and remove_block modify only the
blocks mapping — the visible_blocks cache and the batch are untouched — and
rebuild_batch recomputes the cache from scratch: a position is cached
exactly when it carries a block, lies within render distance of the player,
and passes the is_exposed test. -/
theorem c10_sd_frame (sw : SDWorld) (p : Pos) (t : BlockType) (pp : Vec3) :
    (sdAddBlock sw p t).visible = sw.visible ∧
    (sdAddBlock sw p t).batch = sw.batch ∧
    (sdRemoveBlock sw p).visible = sw.visible ∧
    (sdRemoveBlock sw p).batch = sw.batch ∧
    (∀ q : Pos, q ∈ (sdRebuildBatch sw pp).visible ↔
      ∃ t2 : BlockType, (q, t2) ∈ sw.blocks ∧
        sdWithinRender q pp = true ∧ sdIsExposed sw.blocks q = true) := by
  refine ⟨rfl, rfl, rfl, rfl, ?_⟩
  intro q
  simp only [sdRebuildBatch, List.mem_map, List.mem_filter, Bool.and_eq_true]
  constructor
  · rintro ⟨⟨a, b⟩, ⟨hmem, hw, he⟩, rfl⟩
    exact ⟨b, hmem, hw, he⟩
  · rintro ⟨t2, hmem, hw, he⟩
    exact ⟨(q, t2), ⟨hmem, hw, he⟩, rfl⟩

/-! ### Raycaster lemmas -/

lemma stepAdd_zeroVec (v : Vec3) (s : Rat) : stepAdd v zeroVec s = v := by
  obtain ⟨a, b, c⟩ := v
  simp [stepAdd, zeroVec]

lemma raycastLoop_zero_none (blocks : BMap) (cur : Vec3)
    (h : containsKey blocks (roundPos cur) = false) :
    ∀ n : Nat, raycastLoop blocks zeroVec n cur = none := by
  intro n
  induction n with
  | zero => rfl
  | succ m ih =>
    rw [raycastLoop]
    rw [h]
    simp only [Bool.false_eq_true, if_false, stepAdd_zeroVec]
    exact ih

lemma raycastLoop_zero_hit (blocks : BMap) (cur : Vec3) (m : Nat)
    (h : containsKey blocks (roundPos cur) = true) :
    raycastLoop blocks zeroVec (m + 1) cur = some (roundPos cur, roundPos cur) := by
  rw [raycastLoop]
  rw [h]
  simp [stepAdd_zeroVec]

lemma marchPos_shift (start dirv : Vec3) :
    ∀ k : Nat, marchPos (stepAdd start dirv (1 / 10)) dirv k =
      marchPos start dirv (k + 1) := by
  intro k
  induction k with
  | zero => rfl
  | succ m ih =>
    show stepAdd (marchPos (stepAdd start dirv (1 / 10)) dirv m) dirv (1 / 10)
      = stepAdd (marchPos start dirv (m + 1)) dirv (1 / 10)
    rw [ih]

lemma raycastLoop_none_of_misses (blocks : BMap) (dirv : Vec3) :
    ∀ (n : Nat) (cur : Vec3),
      (∀ k, k < n → containsKey blocks (roundPos (marchPos cur dirv k)) = false) →
      raycastLoop blocks dirv n cur = none := by
  intro n
  induction n with
  | zero => intro cur _; rfl
  | succ m ih =>
    intro cur h
    have h0 : containsKey blocks (roundPos cur) = false :=
      h 0 (Nat.succ_pos m)
    rw [raycastLoop]
    rw [h0]
    simp only [Bool.false_eq_true, if_false]
    refine ih (stepAdd cur dirv (1 / 10)) ?_
    intro k hk
    rw [marchPos_shift]
    exact h (k + 1) (Nat.succ_lt_succ hk)

/-! ### Claim theorems: the raycaster -/

/-- C7: on a map whose only block is at (2,0,0), a raycast from the origin
along (1,0,0) with step 0.1 and max distance 10 hits (2,0,0) and reports
(1,0,0) as the adjacent empty cell (floats modelled by exact rationals with
round-half-to-even; the hit occurs when the march reaches 1.5). -/
theorem c7_raycast_single_block :
    raycast [(((2 : Int), 0, 0), stone)] ((0 : Rat), 0, 0) ((1 : Rat), 0, 0) 10
      = some (((2 : Int), 0, 0), ((1 : Int), 0, 0)) := by
  with_unfolding_all rfl

/-- C8: whenever no marched-and-rounded position within the iteration budget
is occupied, the raycast returns (None, None). -/
theorem c8_raycast_no_hit (blocks : BMap) (start dirv : Vec3) (maxDist : Rat)
    (h : ∀ k, k < numIters maxDist →
      containsKey blocks (roundPos (marchPos start dirv k)) = false) :
    raycast blocks start dirv maxDist = none :=
  raycastLoop_none_of_misses blocks dirv (numIters maxDist) start h

/-- C8 witness: an empty map yields no hit. -/
theorem c8_raycast_no_hit_witness :
    raycast [] ((0 : Rat), 0, 0) ((1 : Rat), 0, 0) 10 = none :=
  c8_raycast_no_hit [] ((0 : Rat), 0, 0) ((1 : Rat), 0, 0) 10 (fun _ _ => rfl)

/-- C9 counterexample: with direction (0,0,0) the raycast is not always
"no hit": if the rounded origin is occupied, the very first probe hits, and
the call returns the origin cell as both hit and adjacent position. -/
theorem c9_zero_dir_hits :
    raycast [(origin000, stone)] ((0 : Rat), 0, 0) zeroVec 10
        = some (origin000, origin000) ∧
    raycast [(origin000, stone)] ((0 : Rat), 0, 0) zeroVec 10 ≠ none := by
  have h : raycast [(origin000, stone)] ((0 : Rat), 0, 0) zeroVec 10
      = some (origin000, origin000) := by with_unfolding_all rfl
  exact ⟨h, by rw [h]; simp⟩

/-- C9 amended: with a zero-length direction the current point never moves,
so the raycast returns (None, None) iff the rounded origin is unoccupied;
when the rounded origin is occupied (and the iteration budget is positive)
it returns the rounded origin as both hit and adjacent position. -/
theorem c9_zero_dir (blocks : BMap) (start : Vec3) (maxDist : Rat) :
    (containsKey blocks (roundPos start) = false →
      raycast blocks start zeroVec maxDist = none) ∧
    (containsKey blocks (roundPos start) = true → 0 < numIters maxDist →
      raycast blocks start zeroVec maxDist
        = some (roundPos start, roundPos start)) := by
  constructor
  · intro h
    exact raycastLoop_zero_none blocks start h (numIters maxDist)
  · intro h hn
    rw [raycast]
    rcases Nat.exists_eq_add_of_lt hn with ⟨m, hm⟩
    rw [hm, Nat.zero_add]
    exact raycastLoop_zero_hit blocks start m h

/-- C9 witness: both regimes at concrete inputs — empty map gives no hit,
occupied origin gives a hit at the origin cell. -/
theorem c9_zero_dir_witness :
    raycast [] ((0 : Rat), 0, 0) zeroVec 10 = none ∧
    raycast [(((7 : Int), 0, 0), stone)] ((7 : Rat), 0, 0) zeroVec 10
      = some (((7 : Int), 0, 0), ((7 : Int), 0, 0)) := by
  constructor
  · exact (c9_zero_dir [] ((0 : Rat), 0, 0) 10).1 rfl
  · have h2 := (c9_zero_dir [(((7 : Int), 0, 0), stone)] ((7 : Rat), 0, 0) 10).2
    have hc : containsKey [(((7 : Int), 0, 0), stone)]
        (roundPos ((7 : Rat), 0, 0)) = true := by with_unfolding_all rfl
    have hr : roundPos ((7 : Rat), 0, 0) = ((7 : Int), 0, 0) := by
      with_unfolding_all rfl
    have hn : numIters 10 = 100 := by with_unfolding_all rfl
    have hfin := h2 hc (by rw [hn]; decide)
    rw [hr] at hfin
    exact hfin
